import Mathlib

/-
Verification of the rank calculation in src/calculateRank.js.

The source is a pure function over floating point numbers; we embed it
over the real numbers. The JavaScript expression
LEVELS[THRESHOLDS.findIndex((t) => rank * 100 <= t)] yields undefined
when findIndex returns -1, which we model as an Option String that is
none exactly in that case.
-/

namespace RankCalc

/-- The exponential cdf from the source: 1 - 2 ^ (-x). -/
noncomputable def exponential_cdf (x : ℝ) : ℝ := 1 - 2 ^ (-x)

/-- The log normal cdf approximation from the source: x / (1 + x). -/
noncomputable def log_normal_cdf (x : ℝ) : ℝ := x / (1 + x)

/-- The destructured parameter object of calculateRank. -/
structure RankInput where
  all_commits : Bool
  commits : ℝ
  prs : ℝ
  issues : ℝ
  reviews : ℝ
  repos : ℝ
  stars : ℝ
  followers : ℝ

/-- Commit median: 400 when all commits are counted, 80 otherwise. -/
noncomputable def COMMITS_MEDIAN (all_commits : Bool) : ℝ :=
  if all_commits then 400 else 80

noncomputable def COMMITS_WEIGHT : ℝ := 15

noncomputable def PRS_MEDIAN : ℝ := 15

noncomputable def PRS_WEIGHT : ℝ := 3

noncomputable def ISSUES_MEDIAN : ℝ := 2

noncomputable def ISSUES_WEIGHT : ℝ := 0.5

noncomputable def REVIEWS_MEDIAN : ℝ := 2

noncomputable def REVIEWS_WEIGHT : ℝ := 0.5

noncomputable def STARS_MEDIAN : ℝ := 0.1

noncomputable def STARS_WEIGHT : ℝ := 0.05

noncomputable def FOLLOWERS_MEDIAN : ℝ := 2

noncomputable def FOLLOWERS_WEIGHT : ℝ := 0.5

noncomputable def TOTAL_WEIGHT : ℝ :=
  COMMITS_WEIGHT + PRS_WEIGHT + ISSUES_WEIGHT + REVIEWS_WEIGHT +
    STARS_WEIGHT + FOLLOWERS_WEIGHT

noncomputable def THRESHOLDS : List ℝ :=
  [0.1, 0.5, 1, 5, 12.5, 25, 37.5, 50, 62.5, 75, 87.5, 100]

def LEVELS : List String :=
  ["S++", "S+", "S", "S-", "A+", "A", "A-", "B+", "B", "B-", "C+", "C"]

/-- JavaScript Array.findIndex specialised to the predicate p <= t,
returning none where findIndex returns -1. -/
noncomputable def findIndex (p : ℝ) : List ℝ → Option ℕ
  | [] => none
  | t :: ts => if p ≤ t then some 0 else (findIndex p ts).map (· + 1)

/-- The bucketing step LEVELS[THRESHOLDS.findIndex((t) => p <= t)]:
indexing with -1 gives undefined, modelled as none. -/
noncomputable def bucketLevel (p : ℝ) : Option String :=
  match findIndex p THRESHOLDS with
  | some i => LEVELS[i]?
  | none => none

noncomputable def commits_score (i : RankInput) : ℝ :=
  exponential_cdf (i.commits / COMMITS_MEDIAN i.all_commits)

noncomputable def prs_score (i : RankInput) : ℝ :=
  exponential_cdf (i.prs / PRS_MEDIAN)

noncomputable def issues_score (i : RankInput) : ℝ :=
  exponential_cdf (i.issues / ISSUES_MEDIAN)

noncomputable def reviews_score (i : RankInput) : ℝ :=
  exponential_cdf (i.reviews / REVIEWS_MEDIAN)

noncomputable def stars_score (i : RankInput) : ℝ :=
  log_normal_cdf (i.stars / STARS_MEDIAN)

noncomputable def followers_score (i : RankInput) : ℝ :=
  log_normal_cdf (i.followers / FOLLOWERS_MEDIAN)

noncomputable def weighted_sum (i : RankInput) : ℝ :=
  COMMITS_WEIGHT * commits_score i +
    PRS_WEIGHT * prs_score i +
    ISSUES_WEIGHT * issues_score i +
    REVIEWS_WEIGHT * reviews_score i +
    STARS_WEIGHT * stars_score i +
    FOLLOWERS_WEIGHT * followers_score i

noncomputable def rank (i : RankInput) : ℝ := 1 - weighted_sum i / TOTAL_WEIGHT

/-- A record of one real value per scored metric, the shape of the
scores, weights and weighted_contributions objects in the source. -/
structure MetricValues where
  commits : ℝ
  prs : ℝ
  issues : ℝ
  reviews : ℝ
  stars : ℝ
  followers : ℝ

/-- The detailed object assembled by calculateRank. -/
structure Detailed where
  level : Option String
  percentile : ℝ
  scores : MetricValues
  weights : MetricValues
  weighted_contributions : MetricValues
  total_weighted_score : ℝ
  max_possible_score : ℝ

/-- The value returned by calculateRank. -/
structure RankResult where
  level : Option String
  percentile : ℝ
  detailed : Detailed

/-- The main entry point, mirroring calculateRank in the source. -/
noncomputable def calculateRank (i : RankInput) : RankResult :=
  let level := bucketLevel (rank i * 100)
  { level := level
    percentile := rank i * 100
    detailed :=
      { level := level
        percentile := rank i * 100
        scores := ⟨commits_score i, prs_score i, issues_score i,
          reviews_score i, stars_score i, followers_score i⟩
        weights := ⟨COMMITS_WEIGHT, PRS_WEIGHT, ISSUES_WEIGHT,
          REVIEWS_WEIGHT, STARS_WEIGHT, FOLLOWERS_WEIGHT⟩
        weighted_contributions := ⟨COMMITS_WEIGHT * commits_score i,
          PRS_WEIGHT * prs_score i, ISSUES_WEIGHT * issues_score i,
          REVIEWS_WEIGHT * reviews_score i, STARS_WEIGHT * stars_score i,
          FOLLOWERS_WEIGHT * followers_score i⟩
        total_weighted_score := weighted_sum i
        max_possible_score := TOTAL_WEIGHT } }

/-- The documented domain: all six scored metrics non-negative. -/
def NonnegInput (i : RankInput) : Prop :=
  0 ≤ i.commits ∧ 0 ≤ i.prs ∧ 0 ≤ i.issues ∧ 0 ≤ i.reviews ∧
    0 ≤ i.stars ∧ 0 ≤ i.followers

theorem exponential_cdf_nonneg {x : ℝ} (hx : 0 ≤ x) : 0 ≤ exponential_cdf x := by
  have h : (2 : ℝ) ^ (-x) ≤ 1 :=
    Real.rpow_le_one_of_one_le_of_nonpos (by norm_num) (by linarith)
  unfold exponential_cdf
  linarith

theorem exponential_cdf_lt_one (x : ℝ) : exponential_cdf x < 1 := by
  have h : (0 : ℝ) < 2 ^ (-x) := Real.rpow_pos_of_pos (by norm_num) _
  unfold exponential_cdf
  linarith

theorem exponential_cdf_mono {x y : ℝ} (h : x ≤ y) :
    exponential_cdf x ≤ exponential_cdf y := by
  have h2 : (2 : ℝ) ^ (-y) ≤ 2 ^ (-x) :=
    (Real.rpow_le_rpow_left_iff (by norm_num)).mpr (by linarith)
  unfold exponential_cdf
  linarith

theorem exponential_cdf_strict_mono {x y : ℝ} (h : x < y) :
    exponential_cdf x < exponential_cdf y := by
  have h2 : (2 : ℝ) ^ (-y) < 2 ^ (-x) :=
    (Real.rpow_lt_rpow_left_iff (by norm_num)).mpr (by linarith)
  unfold exponential_cdf
  linarith

theorem log_normal_cdf_nonneg {x : ℝ} (hx : 0 ≤ x) : 0 ≤ log_normal_cdf x :=
  div_nonneg hx (by linarith)

theorem log_normal_cdf_lt_one {x : ℝ} (hx : 0 ≤ x) : log_normal_cdf x < 1 := by
  unfold log_normal_cdf
  rw [div_lt_one (by linarith)]
  linarith

theorem log_normal_cdf_mono {x y : ℝ} (hx : 0 ≤ x) (h : x ≤ y) :
    log_normal_cdf x ≤ log_normal_cdf y := by
  have hy : 0 ≤ y := hx.trans h
  unfold log_normal_cdf
  rw [div_le_div_iff₀ (by linarith) (by linarith)]
  nlinarith

theorem exponential_cdf_zero : exponential_cdf 0 = 0 := by
  unfold exponential_cdf
  rw [neg_zero, Real.rpow_zero]
  ring

theorem log_normal_cdf_zero : log_normal_cdf 0 = 0 := by
  unfold log_normal_cdf
  norm_num

theorem COMMITS_MEDIAN_pos (b : Bool) : 0 < COMMITS_MEDIAN b := by
  cases b <;> norm_num [COMMITS_MEDIAN]

theorem TOTAL_WEIGHT_eq : TOTAL_WEIGHT = 19.55 := by
  norm_num [TOTAL_WEIGHT, COMMITS_WEIGHT, PRS_WEIGHT, ISSUES_WEIGHT,
    REVIEWS_WEIGHT, STARS_WEIGHT, FOLLOWERS_WEIGHT]

theorem weighted_sum_nonneg {i : RankInput} (h : NonnegInput i) :
    0 ≤ weighted_sum i := by
  obtain ⟨hc, hp, hi, hr, hs, hf⟩ := h
  have mc := COMMITS_MEDIAN_pos i.all_commits
  have h1 : 0 ≤ commits_score i :=
    exponential_cdf_nonneg (div_nonneg hc mc.le)
  have h2 : 0 ≤ prs_score i :=
    exponential_cdf_nonneg (div_nonneg hp (by norm_num [PRS_MEDIAN]))
  have h3 : 0 ≤ issues_score i :=
    exponential_cdf_nonneg (div_nonneg hi (by norm_num [ISSUES_MEDIAN]))
  have h4 : 0 ≤ reviews_score i :=
    exponential_cdf_nonneg (div_nonneg hr (by norm_num [REVIEWS_MEDIAN]))
  have h5 : 0 ≤ stars_score i :=
    log_normal_cdf_nonneg (div_nonneg hs (by norm_num [STARS_MEDIAN]))
  have h6 : 0 ≤ followers_score i :=
    log_normal_cdf_nonneg (div_nonneg hf (by norm_num [FOLLOWERS_MEDIAN]))
  unfold weighted_sum
  unfold COMMITS_WEIGHT PRS_WEIGHT ISSUES_WEIGHT REVIEWS_WEIGHT
    STARS_WEIGHT FOLLOWERS_WEIGHT
  nlinarith

theorem weighted_sum_lt_total {i : RankInput} (h : NonnegInput i) :
    weighted_sum i < TOTAL_WEIGHT := by
  obtain ⟨hc, hp, hi, hr, hs, hf⟩ := h
  have h1 : commits_score i < 1 := exponential_cdf_lt_one _
  have h2 : prs_score i < 1 := exponential_cdf_lt_one _
  have h3 : issues_score i < 1 := exponential_cdf_lt_one _
  have h4 : reviews_score i < 1 := exponential_cdf_lt_one _
  have h5 : stars_score i < 1 :=
    log_normal_cdf_lt_one (div_nonneg hs (by norm_num [STARS_MEDIAN]))
  have h6 : followers_score i < 1 :=
    log_normal_cdf_lt_one (div_nonneg hf (by norm_num [FOLLOWERS_MEDIAN]))
  unfold weighted_sum TOTAL_WEIGHT
  unfold COMMITS_WEIGHT PRS_WEIGHT ISSUES_WEIGHT REVIEWS_WEIGHT
    STARS_WEIGHT FOLLOWERS_WEIGHT
  nlinarith

theorem percentile_eq (i : RankInput) :
    (calculateRank i).percentile = (1 - weighted_sum i / TOTAL_WEIGHT) * 100 :=
  rfl

/-- C1: for every input whose six scored metrics are non-negative, the
percentile returned by calculateRank lies in the closed interval from
0 to 100. -/
theorem percentile_bounds (i : RankInput) (h : NonnegInput i) :
    0 ≤ (calculateRank i).percentile ∧ (calculateRank i).percentile ≤ 100 := by
  have h0 := weighted_sum_nonneg h
  have h1 := weighted_sum_lt_total h
  have hw : (0 : ℝ) < TOTAL_WEIGHT := by rw [TOTAL_WEIGHT_eq]; norm_num
  rw [percentile_eq]
  constructor
  · have : weighted_sum i / TOTAL_WEIGHT < 1 := (div_lt_one hw).mpr h1
    nlinarith
  · have : 0 ≤ weighted_sum i / TOTAL_WEIGHT := div_nonneg h0 hw.le
    nlinarith

/-- Witness for C1 at the all-zero input. -/
theorem percentile_bounds_witness :
    0 ≤ (calculateRank ⟨false, 0, 0, 0, 0, 0, 0, 0⟩).percentile ∧
      (calculateRank ⟨false, 0, 0, 0, 0, 0, 0, 0⟩).percentile ≤ 100 :=
  percentile_bounds ⟨false, 0, 0, 0, 0, 0, 0, 0⟩
    ⟨le_refl 0, le_refl 0, le_refl 0, le_refl 0, le_refl 0, le_refl 0⟩

theorem TOTAL_WEIGHT_pos : (0 : ℝ) < TOTAL_WEIGHT := by
  rw [TOTAL_WEIGHT_eq]; norm_num

theorem percentile_antitone {i j : RankInput}
    (h : weighted_sum i ≤ weighted_sum j) :
    (calculateRank j).percentile ≤ (calculateRank i).percentile := by
  rw [percentile_eq, percentile_eq]
  have hd : weighted_sum i / TOTAL_WEIGHT ≤ weighted_sum j / TOTAL_WEIGHT :=
    (div_le_div_iff_of_pos_right TOTAL_WEIGHT_pos).mpr h
  nlinarith

theorem weighted_sum_le_of_scores_le {i j : RankInput}
    (h1 : commits_score i ≤ commits_score j)
    (h2 : prs_score i ≤ prs_score j)
    (h3 : issues_score i ≤ issues_score j)
    (h4 : reviews_score i ≤ reviews_score j)
    (h5 : stars_score i ≤ stars_score j)
    (h6 : followers_score i ≤ followers_score j) :
    weighted_sum i ≤ weighted_sum j := by
  unfold weighted_sum
  unfold COMMITS_WEIGHT PRS_WEIGHT ISSUES_WEIGHT REVIEWS_WEIGHT
    STARS_WEIGHT FOLLOWERS_WEIGHT
  nlinarith

/-- C2: increasing any single scored metric, all other fields fixed and
metrics non-negative, never increases the percentile. -/
theorem percentile_monotone (i : RankInput) (h : NonnegInput i) :
    (∀ c, i.commits ≤ c → (calculateRank {i with commits := c}).percentile ≤
      (calculateRank i).percentile) ∧
    (∀ c, i.prs ≤ c → (calculateRank {i with prs := c}).percentile ≤
      (calculateRank i).percentile) ∧
    (∀ c, i.issues ≤ c → (calculateRank {i with issues := c}).percentile ≤
      (calculateRank i).percentile) ∧
    (∀ c, i.reviews ≤ c → (calculateRank {i with reviews := c}).percentile ≤
      (calculateRank i).percentile) ∧
    (∀ c, i.stars ≤ c → (calculateRank {i with stars := c}).percentile ≤
      (calculateRank i).percentile) ∧
    (∀ c, i.followers ≤ c → (calculateRank {i with followers := c}).percentile ≤
      (calculateRank i).percentile) := by
  obtain ⟨hc, hp, hi, hr, hs, hf⟩ := h
  refine ⟨fun c hle => ?_, fun c hle => ?_, fun c hle => ?_,
    fun c hle => ?_, fun c hle => ?_, fun c hle => ?_⟩
  · refine percentile_antitone (weighted_sum_le_of_scores_le ?_ le_rfl le_rfl
      le_rfl le_rfl le_rfl)
    exact exponential_cdf_mono
      ((div_le_div_iff_of_pos_right (COMMITS_MEDIAN_pos i.all_commits)).mpr hle)
  · refine percentile_antitone (weighted_sum_le_of_scores_le le_rfl ?_ le_rfl
      le_rfl le_rfl le_rfl)
    exact exponential_cdf_mono
      ((div_le_div_iff_of_pos_right (by norm_num [PRS_MEDIAN])).mpr hle)
  · refine percentile_antitone (weighted_sum_le_of_scores_le le_rfl le_rfl ?_
      le_rfl le_rfl le_rfl)
    exact exponential_cdf_mono
      ((div_le_div_iff_of_pos_right (by norm_num [ISSUES_MEDIAN])).mpr hle)
  · refine percentile_antitone (weighted_sum_le_of_scores_le le_rfl le_rfl
      le_rfl ?_ le_rfl le_rfl)
    exact exponential_cdf_mono
      ((div_le_div_iff_of_pos_right (by norm_num [REVIEWS_MEDIAN])).mpr hle)
  · refine percentile_antitone (weighted_sum_le_of_scores_le le_rfl le_rfl
      le_rfl le_rfl ?_ le_rfl)
    refine log_normal_cdf_mono (div_nonneg hs (by norm_num [STARS_MEDIAN])) ?_
    exact (div_le_div_iff_of_pos_right (by norm_num [STARS_MEDIAN])).mpr hle
  · refine percentile_antitone (weighted_sum_le_of_scores_le le_rfl le_rfl
      le_rfl le_rfl le_rfl ?_)
    refine log_normal_cdf_mono (div_nonneg hf (by norm_num [FOLLOWERS_MEDIAN])) ?_
    exact (div_le_div_iff_of_pos_right (by norm_num [FOLLOWERS_MEDIAN])).mpr hle

/-- Witness for C2: raising commits from 0 to 5 does not increase the
percentile. -/
theorem percentile_monotone_witness :
    (calculateRank ⟨false, 5, 0, 0, 0, 0, 0, 0⟩).percentile ≤
      (calculateRank ⟨false, 0, 0, 0, 0, 0, 0, 0⟩).percentile :=
  (percentile_monotone ⟨false, 0, 0, 0, 0, 0, 0, 0⟩
    ⟨le_refl 0, le_refl 0, le_refl 0, le_refl 0, le_refl 0, le_refl 0⟩).1
    5 (by norm_num)

theorem findIndex_nil (p : ℝ) : findIndex p [] = none := rfl

theorem findIndex_cons_le {p t : ℝ} (ts : List ℝ) (h : p ≤ t) :
    findIndex p (t :: ts) = some 0 := by
  simp only [findIndex]
  rw [if_pos h]

theorem findIndex_cons_gt {p t : ℝ} (ts : List ℝ) (h : t < p) :
    findIndex p (t :: ts) = (findIndex p ts).map (· + 1) := by
  simp only [findIndex]
  rw [if_neg (not_le.mpr h)]

theorem findIndex_first_fit (p : ℝ) (l : List ℝ) (hex : ∃ t ∈ l, p ≤ t) :
    ∃ i, findIndex p l = some i ∧ i < l.length ∧ p ≤ l.getD i 0 ∧
      ∀ j < i, l.getD j 0 < p := by
  induction l with
  | nil => simp at hex
  | cons t ts ih =>
    by_cases h : p ≤ t
    · refine ⟨0, findIndex_cons_le ts h, by simp, by simpa using h, ?_⟩
      intro j hj
      exact absurd hj (Nat.not_lt_zero j)
    · have hex' : ∃ u ∈ ts, p ≤ u := by
        rcases hex with ⟨u, hu, hup⟩
        rcases List.mem_cons.mp hu with he | hm
        · exact absurd (he ▸ hup) h
        · exact ⟨u, hm, hup⟩
      obtain ⟨i, hfi, hlen, hle, hfirst⟩ := ih hex'
      refine ⟨i + 1, ?_, by simpa using Nat.succ_lt_succ hlen,
        by simpa using hle, ?_⟩
      · rw [findIndex_cons_gt ts (not_le.mp h), hfi]
        rfl
      · intro j hj
        cases j with
        | zero => simpa using not_le.mp h
        | succ k => simpa using hfirst k (by omega)

theorem findIndex_eq_of_first_fit (p : ℝ) (l : List ℝ) (i : ℕ)
    (hi : i < l.length) (hle : p ≤ l.getD i 0)
    (hlt : ∀ j < i, l.getD j 0 < p) :
    findIndex p l = some i := by
  induction l generalizing i with
  | nil => simp at hi
  | cons t ts ih =>
    cases i with
    | zero => exact findIndex_cons_le ts (by simpa using hle)
    | succ k =>
      have ht : t < p := by simpa using hlt 0 (Nat.succ_pos k)
      rw [findIndex_cons_gt ts ht,
        ih k (by simpa using hi) (by simpa using hle)
          (fun j hj => by simpa using hlt (j + 1) (by omega))]
      rfl

theorem bucketLevel_of_findIndex {p : ℝ} {i : ℕ}
    (h : findIndex p THRESHOLDS = some i) (hi : i < LEVELS.length) :
    bucketLevel p = some (LEVELS.getD i "") := by
  unfold bucketLevel
  rw [h]
  show LEVELS[i]? = some (LEVELS.getD i "")
  rw [List.getElem?_eq_getElem hi, List.getD_eq_getElem?_getD,
    List.getElem?_eq_getElem hi]
  rfl

theorem findIndex_none_of_gt {p : ℝ} (h : 100 < p) :
    findIndex p THRESHOLDS = none := by
  unfold THRESHOLDS
  rw [findIndex_cons_gt _ (by linarith), findIndex_cons_gt _ (by linarith),
    findIndex_cons_gt _ (by linarith), findIndex_cons_gt _ (by linarith),
    findIndex_cons_gt _ (by linarith), findIndex_cons_gt _ (by linarith),
    findIndex_cons_gt _ (by linarith), findIndex_cons_gt _ (by linarith),
    findIndex_cons_gt _ (by linarith), findIndex_cons_gt _ (by linarith),
    findIndex_cons_gt _ (by linarith), findIndex_cons_gt _ (by linarith),
    findIndex_nil]
  rfl

/-- C3 counterexample: at percentile 101, which exceeds every threshold,
the bucketing step returns no grade label at all (JavaScript undefined,
modelled as none), not the lowest grade label. -/
theorem bucket_above_thresholds_cex :
    (100 : ℝ) < 101 ∧ bucketLevel 101 = none := by
  refine ⟨by norm_num, ?_⟩
  unfold bucketLevel
  rw [findIndex_none_of_gt (by norm_num)]

/-- C3 amended: for every percentile exceeding every threshold in the
table, the bucketing step deterministically returns no grade label
(findIndex yields -1 and indexing yields undefined, modelled as none). -/
theorem bucket_above_thresholds (p : ℝ) (h : 100 < p) :
    bucketLevel p = none := by
  unfold bucketLevel
  rw [findIndex_none_of_gt h]

/-- Witness for the amended C3 at percentile 101. -/
theorem bucket_above_thresholds_witness : bucketLevel 101 = none :=
  bucket_above_thresholds 101 (by norm_num)

theorem THRESHOLDS_length : THRESHOLDS.length = 12 := by
  norm_num [THRESHOLDS]

theorem LEVELS_length : LEVELS.length = 12 := rfl

/-- C4: for every percentile in the closed interval from 0 to 100, the
bucketing step returns exactly the label paired with the first threshold
(in ascending scan order) that is at least the percentile; in
particular a percentile equal to a threshold maps to that threshold's
label. -/
theorem bucket_first_fit :
    (∀ p : ℝ, 0 ≤ p → p ≤ 100 →
      ∃ i, i < THRESHOLDS.length ∧ bucketLevel p = some (LEVELS.getD i "") ∧
        p ≤ THRESHOLDS.getD i 0 ∧ ∀ j < i, THRESHOLDS.getD j 0 < p) ∧
    (∀ i, i < THRESHOLDS.length →
      bucketLevel (THRESHOLDS.getD i 0) = some (LEVELS.getD i "")) := by
  constructor
  · intro p h0 h1
    have hex : ∃ t ∈ THRESHOLDS, p ≤ t :=
      ⟨100, by norm_num [THRESHOLDS], h1⟩
    obtain ⟨i, hfi, hilen, hle, hfirst⟩ := findIndex_first_fit p THRESHOLDS hex
    refine ⟨i, hilen, bucketLevel_of_findIndex hfi ?_, hle, hfirst⟩
    rw [LEVELS_length]
    rw [THRESHOLDS_length] at hilen
    exact hilen
  · intro i hi
    have hfi : findIndex (THRESHOLDS.getD i 0) THRESHOLDS = some i := by
      refine findIndex_eq_of_first_fit _ _ i hi le_rfl ?_
      intro j hj
      rw [THRESHOLDS_length] at hi
      interval_cases i <;> interval_cases j <;> norm_num [THRESHOLDS]
    refine bucketLevel_of_findIndex hfi ?_
    rw [LEVELS_length]
    rw [THRESHOLDS_length] at hi
    exact hi

/-- Witness for C4 at percentile 50, which is itself a threshold and is
bucketed to its own label. -/
theorem bucket_first_fit_witness :
    ∃ i, i < THRESHOLDS.length ∧ bucketLevel 50 = some (LEVELS.getD i "") ∧
      (50 : ℝ) ≤ THRESHOLDS.getD i 0 ∧ ∀ j < i, THRESHOLDS.getD j 0 < 50 :=
  bucket_first_fit.1 50 (by norm_num) (by norm_num)

/-- C5: the all-zero input has percentile exactly 100 and is bucketed to
the label "C", the last and lowest-ranked entry of the grade table. -/
theorem allzero_result (b : Bool) (r : ℝ) :
    (calculateRank ⟨b, 0, 0, 0, 0, r, 0, 0⟩).percentile = 100 ∧
      (calculateRank ⟨b, 0, 0, 0, 0, r, 0, 0⟩).level = some "C" ∧
      LEVELS.getD (LEVELS.length - 1) "" = "C" := by
  have hws : weighted_sum ⟨b, 0, 0, 0, 0, r, 0, 0⟩ = 0 := by
    unfold weighted_sum commits_score prs_score issues_score reviews_score
      stars_score followers_score
    simp only [zero_div, exponential_cdf_zero, log_normal_cdf_zero]
    ring
  have hrank : rank ⟨b, 0, 0, 0, 0, r, 0, 0⟩ = 1 := by
    unfold rank
    rw [hws, zero_div]
    ring
  refine ⟨?_, ?_, rfl⟩
  · rw [percentile_eq, hws, zero_div]
    ring
  · show bucketLevel (rank ⟨b, 0, 0, 0, 0, r, 0, 0⟩ * 100) = some "C"
    rw [hrank, one_mul]
    have hfi : findIndex (100 : ℝ) THRESHOLDS = some 11 := by
      refine findIndex_eq_of_first_fit _ _ 11 (by rw [THRESHOLDS_length]; omega)
        (by norm_num [THRESHOLDS]) ?_
      intro j hj
      interval_cases j <;> norm_num [THRESHOLDS]
    have := bucketLevel_of_findIndex hfi (by rw [LEVELS_length]; omega)
    rw [this]
    rfl

/-- Witness for C5 with all_commits false and repos 0. -/
theorem allzero_result_witness :
    (calculateRank ⟨false, 0, 0, 0, 0, 0, 0, 0⟩).percentile = 100 ∧
      (calculateRank ⟨false, 0, 0, 0, 0, 0, 0, 0⟩).level = some "C" ∧
      LEVELS.getD (LEVELS.length - 1) "" = "C" :=
  allzero_result false 0

/-- C6: the commit median is 400 when all_commits is true and 80 when it
is false; with commits equal to 80 and every other field fixed, the
all_commits = true run yields a strictly higher (worse) percentile than
the all_commits = false run. -/
theorem commits_median_calibration (i : RankInput) (h : i.commits = 80) :
    COMMITS_MEDIAN true = 400 ∧ COMMITS_MEDIAN false = 80 ∧
      (calculateRank {i with all_commits := false}).percentile <
        (calculateRank {i with all_commits := true}).percentile := by
  refine ⟨rfl, rfl, ?_⟩
  have hsc : commits_score {i with all_commits := true} <
      commits_score {i with all_commits := false} := by
    show exponential_cdf (i.commits / COMMITS_MEDIAN true) <
      exponential_cdf (i.commits / COMMITS_MEDIAN false)
    rw [h]
    apply exponential_cdf_strict_mono
    norm_num [COMMITS_MEDIAN]
  have hws : weighted_sum {i with all_commits := true} <
      weighted_sum {i with all_commits := false} := by
    unfold weighted_sum
    have e2 : prs_score {i with all_commits := true} =
        prs_score {i with all_commits := false} := rfl
    have e3 : issues_score {i with all_commits := true} =
        issues_score {i with all_commits := false} := rfl
    have e4 : reviews_score {i with all_commits := true} =
        reviews_score {i with all_commits := false} := rfl
    have e5 : stars_score {i with all_commits := true} =
        stars_score {i with all_commits := false} := rfl
    have e6 : followers_score {i with all_commits := true} =
        followers_score {i with all_commits := false} := rfl
    rw [e2, e3, e4, e5, e6]
    unfold COMMITS_WEIGHT
    nlinarith [hsc]
  rw [percentile_eq, percentile_eq]
  have hd : weighted_sum {i with all_commits := true} / TOTAL_WEIGHT <
      weighted_sum {i with all_commits := false} / TOTAL_WEIGHT :=
    (div_lt_div_iff_of_pos_right TOTAL_WEIGHT_pos).mpr hws
  nlinarith

/-- Witness for C6 at commits = 80 with every other metric zero. -/
theorem commits_median_calibration_witness :
    COMMITS_MEDIAN true = 400 ∧ COMMITS_MEDIAN false = 80 ∧
      (calculateRank ⟨false, 80, 0, 0, 0, 0, 0, 0⟩).percentile <
        (calculateRank ⟨true, 80, 0, 0, 0, 0, 0, 0⟩).percentile :=
  commits_median_calibration ⟨true, 80, 0, 0, 0, 0, 0, 0⟩ rfl

theorem exponential_cdf_tendsto :
    Filter.Tendsto exponential_cdf Filter.atTop (nhds 1) := by
  have hlog : (0 : ℝ) < Real.log 2 := Real.log_pos (by norm_num)
  have h1 : Filter.Tendsto (fun x : ℝ => Real.log 2 * x)
      Filter.atTop Filter.atTop :=
    Filter.Tendsto.const_mul_atTop hlog Filter.tendsto_id
  have h2 : Filter.Tendsto (fun x : ℝ => -(Real.log 2 * x))
      Filter.atTop Filter.atBot :=
    Filter.tendsto_neg_atTop_atBot.comp h1
  have h3 : Filter.Tendsto (fun x : ℝ => Real.exp (-(Real.log 2 * x)))
      Filter.atTop (nhds 0) :=
    Real.tendsto_exp_atBot.comp h2
  have h4 : ∀ x : ℝ, (2 : ℝ) ^ (-x) = Real.exp (-(Real.log 2 * x)) := by
    intro x
    rw [Real.rpow_def_of_pos (by norm_num)]
    congr 1
    ring
  have h5 : Filter.Tendsto (fun x : ℝ => (2 : ℝ) ^ (-x))
      Filter.atTop (nhds 0) :=
    h3.congr (fun x => (h4 x).symm)
  have h6 : Filter.Tendsto (fun x : ℝ => 1 - (2 : ℝ) ^ (-x))
      Filter.atTop (nhds (1 - 0)) :=
    Filter.Tendsto.sub tendsto_const_nhds h5
  simpa [exponential_cdf] using h6

theorem log_normal_cdf_tendsto :
    Filter.Tendsto log_normal_cdf Filter.atTop (nhds 1) := by
  have h1 : Filter.Tendsto (fun x : ℝ => 1 + x) Filter.atTop Filter.atTop :=
    Filter.tendsto_atTop_add_const_left _ 1 Filter.tendsto_id
  have h2 : Filter.Tendsto (fun x : ℝ => (1 + x)⁻¹)
      Filter.atTop (nhds 0) :=
    tendsto_inv_atTop_zero.comp h1
  have h3 : Filter.Tendsto (fun x : ℝ => 1 - (1 + x)⁻¹)
      Filter.atTop (nhds 1) := by
    have h4 : Filter.Tendsto (fun _ : ℝ => (1 : ℝ)) Filter.atTop (nhds 1) :=
      tendsto_const_nhds
    have h5 := Filter.Tendsto.sub h4 h2
    simpa using h5
  have heq : (fun x : ℝ => 1 - (1 + x)⁻¹) =ᶠ[Filter.atTop] log_normal_cdf := by
    filter_upwards [Filter.eventually_gt_atTop (0 : ℝ)] with x hx
    have hne : (1 : ℝ) + x ≠ 0 := by linarith
    show 1 - (1 + x)⁻¹ = x / (1 + x)
    field_simp
  exact Filter.Tendsto.congr' heq h3

/-- C7: the four exponentially normalized scores equal
1 - 2 ^ (-(raw / median)), the two log-normal-approximation scores equal
r / (1 + r) for the raw-to-median ratio r, and each normalization maps
ratio 0 to 0 and tends to 1 as the ratio grows without bound. -/
theorem cdf_score_formulas :
    (∀ i : RankInput,
      (calculateRank i).detailed.scores.commits =
          1 - 2 ^ (-(i.commits / COMMITS_MEDIAN i.all_commits)) ∧
        (calculateRank i).detailed.scores.prs =
          1 - 2 ^ (-(i.prs / PRS_MEDIAN)) ∧
        (calculateRank i).detailed.scores.issues =
          1 - 2 ^ (-(i.issues / ISSUES_MEDIAN)) ∧
        (calculateRank i).detailed.scores.reviews =
          1 - 2 ^ (-(i.reviews / REVIEWS_MEDIAN)) ∧
        (calculateRank i).detailed.scores.stars =
          (i.stars / STARS_MEDIAN) / (1 + i.stars / STARS_MEDIAN) ∧
        (calculateRank i).detailed.scores.followers =
          (i.followers / FOLLOWERS_MEDIAN) /
            (1 + i.followers / FOLLOWERS_MEDIAN)) ∧
      exponential_cdf 0 = 0 ∧ log_normal_cdf 0 = 0 ∧
      Filter.Tendsto exponential_cdf Filter.atTop (nhds 1) ∧
      Filter.Tendsto log_normal_cdf Filter.atTop (nhds 1) :=
  ⟨fun _ => ⟨rfl, rfl, rfl, rfl, rfl, rfl⟩, exponential_cdf_zero,
    log_normal_cdf_zero, exponential_cdf_tendsto, log_normal_cdf_tendsto⟩

/-- C8: for non-negative metrics the total weighted score is at most the
maximum possible score, and strictly below it. -/
theorem total_le_max (i : RankInput) (h : NonnegInput i) :
    (calculateRank i).detailed.total_weighted_score ≤
        (calculateRank i).detailed.max_possible_score ∧
      (calculateRank i).detailed.total_weighted_score <
        (calculateRank i).detailed.max_possible_score := by
  have hlt : weighted_sum i < TOTAL_WEIGHT := weighted_sum_lt_total h
  exact ⟨le_of_lt hlt, hlt⟩

/-- Witness for C8 at the all-zero input. -/
theorem total_le_max_witness :
    (calculateRank ⟨true, 0, 0, 0, 0, 0, 0, 0⟩).detailed.total_weighted_score ≤
        (calculateRank ⟨true, 0, 0, 0, 0, 0, 0, 0⟩).detailed.max_possible_score ∧
      (calculateRank ⟨true, 0, 0, 0, 0, 0, 0, 0⟩).detailed.total_weighted_score <
        (calculateRank ⟨true, 0, 0, 0, 0, 0, 0, 0⟩).detailed.max_possible_score :=
  total_le_max ⟨true, 0, 0, 0, 0, 0, 0, 0⟩
    ⟨le_refl 0, le_refl 0, le_refl 0, le_refl 0, le_refl 0, le_refl 0⟩

/-- C9: two inputs that agree on every field except repos produce equal
results: repos has no influence on the computation. -/
theorem repos_unused (i j : RankInput) (h1 : i.all_commits = j.all_commits)
    (h2 : i.commits = j.commits) (h3 : i.prs = j.prs)
    (h4 : i.issues = j.issues) (h5 : i.reviews = j.reviews)
    (h6 : i.stars = j.stars) (h7 : i.followers = j.followers) :
    calculateRank i = calculateRank j := by
  obtain ⟨a1, c1, p1, s1, v1, r1, st1, f1⟩ := i
  obtain ⟨a2, c2, p2, s2, v2, r2, st2, f2⟩ := j
  dsimp only at h1 h2 h3 h4 h5 h6 h7
  subst h1 h2 h3 h4 h5 h6 h7
  rfl

/-- Witness for C9: two inputs differing only in repos. -/
theorem repos_unused_witness :
    calculateRank ⟨false, 1, 2, 3, 4, 5, 6, 7⟩ =
      calculateRank ⟨false, 1, 2, 3, 4, 99, 6, 7⟩ :=
  repos_unused ⟨false, 1, 2, 3, 4, 5, 6, 7⟩ ⟨false, 1, 2, 3, 4, 99, 6, 7⟩
    rfl rfl rfl rfl rfl rfl rfl

/-- C10: the returned record is internally consistent: the top-level
level and percentile equal the ones inside detailed, each weighted
contribution is the corresponding weight times the corresponding score,
and the total weighted score is the sum of the six contributions. -/
theorem result_consistency (i : RankInput) :
    (calculateRank i).level = (calculateRank i).detailed.level ∧
      (calculateRank i).percentile = (calculateRank i).detailed.percentile ∧
      (calculateRank i).detailed.weighted_contributions.commits =
        (calculateRank i).detailed.weights.commits *
          (calculateRank i).detailed.scores.commits ∧
      (calculateRank i).detailed.weighted_contributions.prs =
        (calculateRank i).detailed.weights.prs *
          (calculateRank i).detailed.scores.prs ∧
      (calculateRank i).detailed.weighted_contributions.issues =
        (calculateRank i).detailed.weights.issues *
          (calculateRank i).detailed.scores.issues ∧
      (calculateRank i).detailed.weighted_contributions.reviews =
        (calculateRank i).detailed.weights.reviews *
          (calculateRank i).detailed.scores.reviews ∧
      (calculateRank i).detailed.weighted_contributions.stars =
        (calculateRank i).detailed.weights.stars *
          (calculateRank i).detailed.scores.stars ∧
      (calculateRank i).detailed.weighted_contributions.followers =
        (calculateRank i).detailed.weights.followers *
          (calculateRank i).detailed.scores.followers ∧
      (calculateRank i).detailed.total_weighted_score =
        (calculateRank i).detailed.weighted_contributions.commits +
          (calculateRank i).detailed.weighted_contributions.prs +
          (calculateRank i).detailed.weighted_contributions.issues +
          (calculateRank i).detailed.weighted_contributions.reviews +
          (calculateRank i).detailed.weighted_contributions.stars +
          (calculateRank i).detailed.weighted_contributions.followers :=
  ⟨rfl, rfl, rfl, rfl, rfl, rfl, rfl, rfl, rfl⟩

/-- Witness for C10 at a concrete input. -/
theorem result_consistency_witness :
    (calculateRank ⟨false, 1, 2, 3, 4, 5, 6, 7⟩).level =
        (calculateRank ⟨false, 1, 2, 3, 4, 5, 6, 7⟩).detailed.level ∧
      (calculateRank ⟨false, 1, 2, 3, 4, 5, 6, 7⟩).percentile =
        (calculateRank ⟨false, 1, 2, 3, 4, 5, 6, 7⟩).detailed.percentile ∧
      (calculateRank ⟨false, 1, 2, 3, 4, 5, 6, 7⟩).detailed.weighted_contributions.commits =
        (calculateRank ⟨false, 1, 2, 3, 4, 5, 6, 7⟩).detailed.weights.commits *
          (calculateRank ⟨false, 1, 2, 3, 4, 5, 6, 7⟩).detailed.scores.commits ∧
      (calculateRank ⟨false, 1, 2, 3, 4, 5, 6, 7⟩).detailed.weighted_contributions.prs =
        (calculateRank ⟨false, 1, 2, 3, 4, 5, 6, 7⟩).detailed.weights.prs *
          (calculateRank ⟨false, 1, 2, 3, 4, 5, 6, 7⟩).detailed.scores.prs ∧
      (calculateRank ⟨false, 1, 2, 3, 4, 5, 6, 7⟩).detailed.weighted_contributions.issues =
        (calculateRank ⟨false, 1, 2, 3, 4, 5, 6, 7⟩).detailed.weights.issues *
          (calculateRank ⟨false, 1, 2, 3, 4, 5, 6, 7⟩).detailed.scores.issues ∧
      (calculateRank ⟨false, 1, 2, 3, 4, 5, 6, 7⟩).detailed.weighted_contributions.reviews =
        (calculateRank ⟨false, 1, 2, 3, 4, 5, 6, 7⟩).detailed.weights.reviews *
          (calculateRank ⟨false, 1, 2, 3, 4, 5, 6, 7⟩).detailed.scores.reviews ∧
      (calculateRank ⟨false, 1, 2, 3, 4, 5, 6, 7⟩).detailed.weighted_contributions.stars =
        (calculateRank ⟨false, 1, 2, 3, 4, 5, 6, 7⟩).detailed.weights.stars *
          (calculateRank ⟨false, 1, 2, 3, 4, 5, 6, 7⟩).detailed.scores.stars ∧
      (calculateRank ⟨false, 1, 2, 3, 4, 5, 6, 7⟩).detailed.weighted_contributions.followers =
        (calculateRank ⟨false, 1, 2, 3, 4, 5, 6, 7⟩).detailed.weights.followers *
          (calculateRank ⟨false, 1, 2, 3, 4, 5, 6, 7⟩).detailed.scores.followers ∧
      (calculateRank ⟨false, 1, 2, 3, 4, 5, 6, 7⟩).detailed.total_weighted_score =
        (calculateRank ⟨false, 1, 2, 3, 4, 5, 6, 7⟩).detailed.weighted_contributions.commits +
          (calculateRank ⟨false, 1, 2, 3, 4, 5, 6, 7⟩).detailed.weighted_contributions.prs +
          (calculateRank ⟨false, 1, 2, 3, 4, 5, 6, 7⟩).detailed.weighted_contributions.issues +
          (calculateRank ⟨false, 1, 2, 3, 4, 5, 6, 7⟩).detailed.weighted_contributions.reviews +
          (calculateRank ⟨false, 1, 2, 3, 4, 5, 6, 7⟩).detailed.weighted_contributions.stars +
          (calculateRank ⟨false, 1, 2, 3, 4, 5, 6, 7⟩).detailed.weighted_contributions.followers :=
  result_consistency ⟨false, 1, 2, 3, 4, 5, 6, 7⟩

end RankCalc
